import Mathlib

/-!
Verification development for the `notion-assistant` repository.

The repository's core is a collection of small Python functions over
JSON-like records: attribute extraction (`notion/extractions.py`), a fuzzy
database lookup (`notion/reads.py`, `helpers.py`), a markdown/HTML to
Notion-block converter and a handful of mutators (`notion/updates.py`).

We shallowly embed those functions here.  Python dictionaries, lists,
strings and `None` are modelled by the inductive `JVal`; Python exceptions
(`KeyError`, `IndexError`, `TypeError`, `AttributeError`, `ValueError`)
are modelled by the `Except PyErr` monad, so a `try/except` block becomes
a `match` on the error constructor.  Network calls of the external Notion
client are not performed: functions instead return the list of calls they
would issue, or take the external response as a parameter.
-/

namespace NotionAssistant

/-- The Python exceptions the embedded code can raise.  `valueError`
carries the formatted message string. -/
inductive PyErr where
  | keyError
  | indexError
  | typeError
  | attributeError
  | valueError (msg : String)
deriving DecidableEq, Repr

/-- JSON-like Python values: `None`, booleans, numbers, strings, lists and
dictionaries (dictionaries as association lists with distinct keys in the
intended inputs; lookup returns the first binding). -/
inductive JVal where
  | null
  | bool (b : Bool)
  | num (n : Int)
  | str (s : String)
  | arr (xs : List JVal)
  | obj (fields : List (String × JVal))

/-- First binding of a key in an association list (Python dict lookup). -/
def lookupField : List (String × JVal) → String → Option JVal
  | [], _ => none
  | (k, v) :: fs, key => if k = key then some v else lookupField fs key

/-- Python `d[k]`: `KeyError` when the key is absent, `TypeError` when the
receiver is not a dictionary. -/
def pyGetItem : JVal → String → Except PyErr JVal
  | .obj fs, k =>
      match lookupField fs k with
      | some v => .ok v
      | none => .error .keyError
  | _, _ => .error .typeError

/-- Python `d.get(k)`: `None` when the key is absent, `AttributeError`
when the receiver is not a dictionary (e.g. `None.get`). -/
def pyDictGet (v : JVal) (k : String) : Except PyErr JVal :=
  match v with
  | .obj fs =>
      .ok (match lookupField fs k with
           | some x => x
           | none => .null)
  | _ => .error .attributeError

/-- Python `d.get(k, default)`. -/
def pyDictGetD (v : JVal) (k : String) (d : JVal) : Except PyErr JVal :=
  match v with
  | .obj fs =>
      .ok (match lookupField fs k with
           | some x => x
           | none => d)
  | _ => .error .attributeError

/-- Python `xs[i]` on a list: `IndexError` out of range, `TypeError` on a
non-list receiver (the embedded code never indexes strings). -/
def pyIndex : JVal → Nat → Except PyErr JVal
  | .arr xs, i =>
      match xs[i]? with
      | some v => .ok v
      | none => .error .indexError
  | _, _ => .error .typeError

/-- Python `len`. -/
def pyLen : JVal → Except PyErr Nat
  | .arr xs => .ok xs.length
  | .str s => .ok s.length
  | .obj fs => .ok fs.length
  | _ => .error .typeError

/-- Python truthiness of a JSON-like value. -/
def truthy : JVal → Bool
  | .null => false
  | .bool b => b
  | .num n => decide (n ≠ 0)
  | .str s => decide (s ≠ "")
  | .arr xs => !xs.isEmpty
  | .obj fs => !fs.isEmpty

/-- Python `a or b` on values: `a` when truthy, else `b`. -/
def pyOr (a b : JVal) : JVal :=
  if truthy a then a else b

/-- Expect a string value (string methods such as `.lower()`, `.replace`
raise on other receivers; modelled as `TypeError`). -/
def asStr : JVal → Except PyErr String
  | .str s => .ok s
  | _ => .error .typeError

/-- Python `s.lower()` (character-wise lowering). -/
def pyLower (s : String) : String :=
  String.mk (s.data.map Char.toLower)

/-- Whether a value is a Python dictionary. -/
def JVal.isObj : JVal → Bool
  | .obj _ => true
  | _ => false

/-- Whether a value is a Python list. -/
def JVal.isArr : JVal → Bool
  | .arr _ => true
  | _ => false

instance exceptDecEq {ε α : Type} [DecidableEq ε] [DecidableEq α] :
    DecidableEq (Except ε α)
  | .ok a, .ok b =>
      if h : a = b then .isTrue (by rw [h]) else .isFalse (by simp [h])
  | .error e, .error f =>
      if h : e = f then .isTrue (by rw [h]) else .isFalse (by simp [h])
  | .ok _, .error _ => .isFalse (fun h => Except.noConfusion h)
  | .error _, .ok _ => .isFalse (fun h => Except.noConfusion h)

/-- Binding in `Except` succeeds exactly when both steps succeed. -/
theorem except_bind_ok {ε α β : Type} {x : Except ε α} {f : α → Except ε β} {b : β} :
    (x >>= f) = .ok b ↔ ∃ a, x = .ok a ∧ f a = .ok b := by
  cases x <;> simp [Bind.bind, Except.bind]

/-- An error propagates through `>>=` in `Except`. -/
theorem except_bind_error {ε α β : Type} {x : Except ε α} {f : α → Except ε β} {e : ε} :
    (x >>= f) = .error e ↔ (x = .error e ∨ ∃ a, x = .ok a ∧ f a = .error e) := by
  cases x <;> simp [Bind.bind, Except.bind]

/-! ## Fuzzy database lookup (`reads.py` / `helpers.py`)

`filter_database_on_name` keeps the databases whose (lower-cased) title
scores above 90 against the (lower-cased) target name under
`fuzz.partial_ratio`, then returns `db_fuzz[0]`.  The similarity function
comes from the external `thefuzz` library, so the embedding takes it as a
parameter `pr`; `fuzzScore` below is a concrete executable model of it
used to instantiate witnesses. -/

/-- Record `Database`: `reads.py`'s pydantic model (and `helpers.py`'s
namedtuple) with an `id` and an optional `title`. -/
structure Database where
  id : String
  title : Option String
deriving DecidableEq, Repr

/-- The filtering list comprehension of `filter_database_on_name`:
`[db for db in collection if fuzz.partial_ratio(db.title.lower(), name.lower()) > 90]`.
Calling `.lower()` on a `None` title raises `AttributeError`. -/
def fuzzFilter (pr : String → String → Nat) (name : String) :
    List Database → Except PyErr (List Database)
  | [] => .ok []
  | d :: ds =>
      match d.title with
      | none => .error .attributeError
      | some t =>
          if pr (pyLower t) (pyLower name) > 90 then
            (fuzzFilter pr name ds).map (fun rest => d :: rest)
          else
            fuzzFilter pr name ds

/-- Embedding of `filter_database_on_name(database_collection, name)`: filter by fuzzy
score, then return position 0 of the filtered list — which raises
`IndexError` when nothing scored above the threshold. -/
def filter_database_on_name (pr : String → String → Nat)
    (database_collection : List Database) (name : String) :
    Except PyErr Database := do
  let db_fuzz ← fuzzFilter pr name database_collection
  match db_fuzz with
  | [] => .error .indexError
  | d :: _ => .ok d

/-- The Boolean score test applied to one database record. -/
def matchPred (pr : String → String → Nat) (name : String) (d : Database) : Bool :=
  match d.title with
  | some t => decide (pr (pyLower t) (pyLower name) > 90)
  | none => false

/-- Number of aligned equal characters of two character lists. -/
def countEqAligned : List Char → List Char → Nat
  | a :: as, b :: bs => (if a = b then 1 else 0) + countEqAligned as bs
  | _, _ => 0

/-- Percentage (0–100) of positions of `s` matched by the window `w`. -/
def windowScore (s w : List Char) : Nat :=
  if s.length = 0 then 100 else (100 * countEqAligned s w) / s.length

/-- Modelled from the spec: the similarity function `fuzz.partial_ratio`
lives in the external `thefuzz` library, not in this repository.  The
spec's glossary describes it as "a fuzzy string-similarity score
comparing a shorter string against substrings of a longer one" on a
0–100 scale; this model takes the best positional-overlap percentage of
the shorter string against the same-length substrings of the longer one.
Identical strings score 100. -/
def fuzzScore (s1 s2 : String) : Nat :=
  let a := s1.toList
  let b := s2.toList
  let p := if a.length ≤ b.length then (a, b) else (b, a)
  (p.2.tails.map (fun t => windowScore p.1 (t.take p.1.length))).foldl Nat.max 0

/-- When every record has a title, the fuzzy comprehension succeeds and
computes an ordinary filter by the score test. -/
theorem fuzzFilter_ok (pr : String → String → Nat) (name : String)
    (dbs : List Database) (h : ∀ db ∈ dbs, db.title.isSome) :
    fuzzFilter pr name dbs = .ok (dbs.filter (matchPred pr name)) := by
  induction dbs with
  | nil => simp [fuzzFilter]
  | cons d ds ih =>
      have hd : d.title.isSome := h d (by simp)
      obtain ⟨t, ht⟩ := Option.isSome_iff_exists.mp hd
      have ih' := ih (fun db hdb => h db (by simp [hdb]))
      by_cases hp : pr (pyLower t) (pyLower name) > 90 <;>
        simp [fuzzFilter, ht, hp, ih', List.filter_cons, matchPred, Except.map]

/-- The head of a filtered list is the first element satisfying the test. -/
theorem head_filter_eq_find (p : α → Bool) (l : List α) :
    (l.filter p).head? = l.find? p := by
  induction l with
  | nil => simp
  | cons a l ih => by_cases h : p a <;> simp [List.filter_cons, List.find?, h, ih]

/-- C1.  The claim says that when no record's title scores above 90 against
the target, `filter_database_on_name` reports a "no match" empty-selection
input error.  The code instead evaluates `db_fuzz[0]` on the empty filtered
list, raising a bare `IndexError`: at the concrete failing input
`[Database "d1" "Unrelated"]` matched against `"zzz"` (score 0 under the
modelled similarity), the function raises `IndexError`. -/
theorem c1_empty_filter_raises :
    filter_database_on_name fuzzScore [⟨"d1", some "Unrelated"⟩] "zzz"
      = .error .indexError := by decide

/-- C3.  If every record in the collection has a title and some record's
(lower-cased) title scores above 90 against the (lower-cased) target name,
`filter_database_on_name` returns the first such record in original
collection order (`List.find?` of the score test). -/
theorem c3_first_match (pr : String → String → Nat) (dbs : List Database)
    (name : String) (d : Database)
    (htitles : ∀ db ∈ dbs, db.title.isSome)
    (hfind : dbs.find? (matchPred pr name) = some d) :
    filter_database_on_name pr dbs name = .ok d := by
  rw [← head_filter_eq_find] at hfind
  rw [filter_database_on_name, fuzzFilter_ok pr name dbs htitles]
  cases hflt : dbs.filter (matchPred pr name) with
  | nil => rw [hflt] at hfind; simp at hfind
  | cons x xs =>
      rw [hflt] at hfind
      simp [List.head?] at hfind
      subst hfind
      simp [Bind.bind, Except.bind]

/-- C3 witness: matching `[{title:"Old Media Vault"}, {title:"Unrelated"}]`
on `"old media vault"` returns the first record (the claim's concrete
instance, with the modelled similarity scoring identical lower-cased
strings at 100). -/
theorem c3_witness :
    filter_database_on_name fuzzScore
      [⟨"db1", some "Old Media Vault"⟩, ⟨"db2", some "Unrelated"⟩] "old media vault"
      = .ok ⟨"db1", some "Old Media Vault"⟩ :=
  c3_first_match fuzzScore _ _ _ (by decide) (by decide)

/-! ## Page and database enumeration (`helpers.py` / `reads.py`)

`get_all_pages_for_database` (helpers.py) builds a `Page` namedtuple per
raw page object; on `IndexError`/`KeyError` it falls back to the `"Title"`
property and then uses `page["id"].replace("-", "")`.
`get_all_database_ids` (reads.py) builds a `Database` per raw object; on
`IndexError`/`KeyError` it collects `Database(id=database["id"].replace("-", ""))`
into the faulty collection.  The paginated Notion API is external, so both
loops are modelled over the list of raw JSON objects it yields. -/

/-- Python `s.replace("-", "")` as used on Notion ids: remove every dash. -/
def stripDashes (s : String) : String :=
  String.mk (s.data.filter (fun c => c ≠ '-'))

/-- Namedtuple `Page` of `helpers.py`: `("url", "id", "title")`. -/
structure Page where
  url : String
  id : String
  title : String
deriving DecidableEq, Repr

/-- The errors caught by `except (IndexError, KeyError)`. -/
def isCaught : PyErr → Bool
  | .indexError => true
  | .keyError => true
  | _ => false

/-- The `try` body of the page loop:
`Page(page["url"], page["id"], page["properties"]["Name"]["title"][0]["plain_text"])`. -/
def pagePrimary (page : JVal) : Except PyErr Page := do
  let url ← asStr (← pyGetItem page "url")
  let id ← asStr (← pyGetItem page "id")
  let props ← pyGetItem page "properties"
  let nameProp ← pyGetItem props "Name"
  let tl ← pyGetItem nameProp "title"
  let sp ← pyIndex tl 0
  let t ← asStr (← pyGetItem sp "plain_text")
  return ⟨url, id, t⟩

/-- The `except (IndexError, KeyError)` handler of the page loop: use the
`"Title"` property when present and non-empty, building the page with
`page["id"].replace("-", "")`; otherwise log the page as faulty (which
itself reads `page["id"]` for the message) and produce no record.
The handler re-evaluates `page["properties"]` and `...["Title"]`; since
`page` is unchanged those lookups return the same values, which the
embedding reuses. -/
def pageFallback (page : JVal) : Except PyErr (Option Page) := do
  let props ← pyGetItem page "properties"
  let titleProp ← pyDictGet props "Title"
  if truthy titleProp then
    let tl ← pyGetItem titleProp "title"
    let n ← pyLen tl
    if n > 0 then
      let url ← asStr (← pyGetItem page "url")
      let id ← asStr (← pyGetItem page "id")
      let sp ← pyIndex tl 0
      let t ← asStr (← pyGetItem sp "plain_text")
      return some ⟨url, stripDashes id, t⟩
    else
      let _ ← asStr (← pyGetItem page "id")
      return none
  else
    let _ ← asStr (← pyGetItem page "id")
    return none

/-- One iteration of the page loop: `try` the primary constructor, catch
only `IndexError`/`KeyError` with the fallback; other exceptions
propagate. -/
def pageFromJson (page : JVal) : Except PyErr (Option Page) :=
  match pagePrimary page with
  | .ok p => .ok (some p)
  | .error e => if isCaught e then pageFallback page else .error e

/-- Embedding of `get_all_pages_for_database` (helpers.py) over the raw page objects
yielded by the paginated query: collect the successfully built pages in
order; an uncaught exception aborts the whole enumeration. -/
def get_all_pages_for_database : List JVal → Except PyErr (List Page)
  | [] => .ok []
  | p :: ps => do
      let r ← pageFromJson p
      let rest ← get_all_pages_for_database ps
      return (match r with
              | some pg => pg :: rest
              | none => rest)

/-- The `try` body of the database loop (reads.py):
`Database(id=database["id"], title=database["title"][0]["plain_text"])`. -/
def dbPrimary (d : JVal) : Except PyErr Database := do
  let id ← asStr (← pyGetItem d "id")
  let t ← asStr (← pyGetItem (← pyIndex (← pyGetItem d "title") 0) "plain_text")
  return ⟨id, some t⟩

/-- The `except (IndexError, KeyError)` handler of the database loop:
`Database(id=database["id"].replace("-", ""))` with no title. -/
def dbFallback (d : JVal) : Except PyErr Database := do
  let id ← asStr (← pyGetItem d "id")
  return ⟨stripDashes id, none⟩

/-- Embedding of `get_all_database_ids` (reads.py) over the raw objects yielded by the
paginated search: the good collection and the faulty collection, in
order. -/
def get_all_database_ids : List JVal → Except PyErr (List Database × List Database)
  | [] => .ok ([], [])
  | d :: ds =>
      match dbPrimary d with
      | .ok db => do
          let (g, b) ← get_all_database_ids ds
          return (db :: g, b)
      | .error e =>
          if isCaught e then do
            let bad ← dbFallback d
            let (g, b) ← get_all_database_ids ds
            return (g, bad :: b)
          else .error e

theorem asStr_ok {v : JVal} {s : String} : asStr v = .ok s ↔ v = .str s := by
  cases v <;> simp [asStr]

theorem except_pure_ok {ε α : Type} {a b : α} :
    (pure a : Except ε α) = .ok b ↔ a = b := by
  simp [pure, Except.pure]

/-- A page built by the primary path keeps the source id unchanged. -/
theorem pagePrimary_id (page : JVal) (p : Page) (h : pagePrimary page = .ok p) :
    pyGetItem page "id" = .ok (.str p.id) := by
  simp only [pagePrimary, except_bind_ok, except_pure_ok, asStr_ok] at h
  obtain ⟨u, hu, u', hu', i, hi, i', hi', rest⟩ := h
  obtain ⟨props, hp, np, hnp, tl, htl, sp, hsp, t, ht, t', ht', hpage⟩ := rest
  subst hu' hi' ht' hpage
  simpa using hi

/-- A page built by the fallback path carries the dash-stripped source id. -/
theorem pageFallback_id (page : JVal) (p : Page) (h : pageFallback page = .ok (some p)) :
    ∃ i, pyGetItem page "id" = .ok (.str i) ∧ p.id = stripDashes i := by
  simp only [pageFallback, except_bind_ok, except_pure_ok, asStr_ok] at h
  obtain ⟨props, hp, tp, htp, h⟩ := h
  split at h
  · simp only [except_bind_ok, except_pure_ok, asStr_ok] at h
    obtain ⟨tl, htl, n, hn, h⟩ := h
    split at h
    · simp only [except_bind_ok, except_pure_ok, asStr_ok] at h
      obtain ⟨u, hu, u', hu', i, hi, i', hi', sp, hsp, t, ht, t', ht', hp2⟩ := h
      subst hu' hi'
      refine ⟨i', by simpa using hi, ?_⟩
      cases hp2
      rfl
    · simp only [except_bind_ok, except_pure_ok, asStr_ok] at h
      obtain ⟨i, hi, i', hi', hfalse⟩ := h
      simp at hfalse
  · simp only [except_bind_ok, except_pure_ok, asStr_ok] at h
    obtain ⟨i, hi, i', hi', hfalse⟩ := h
    simp at hfalse
theorem dbPrimary_id (d : JVal) (db : Database) (h : dbPrimary d = .ok db) :
    pyGetItem d "id" = .ok (.str db.id) := by
  simp only [dbPrimary, except_bind_ok, except_pure_ok, asStr_ok] at h
  obtain ⟨i, hi, i', hi', tlv, htl, sp, hsp, t, ht, t', ht', hdb⟩ := h
  subst hi' ht'
  cases hdb
  simpa using hi

theorem dbFallback_id (d : JVal) (db : Database) (h : dbFallback d = .ok db) :
    ∃ i, pyGetItem d "id" = .ok (.str i) ∧ db.id = stripDashes i := by
  simp only [dbFallback, except_bind_ok, except_pure_ok, asStr_ok] at h
  obtain ⟨i, hi, i', hi', hdb⟩ := h
  subst hi'
  cases hdb
  exact ⟨i', by simpa using hi, rfl⟩

theorem pageFromJson_id (page : JVal) (p : Page)
    (h : pageFromJson page = .ok (some p)) :
    ∃ i, pyGetItem page "id" = .ok (.str i) ∧ (p.id = i ∨ p.id = stripDashes i) := by
  rw [pageFromJson] at h
  cases hp : pagePrimary page with
  | ok q =>
      rw [hp] at h
      cases h
      exact ⟨p.id, pagePrimary_id page p hp, Or.inl rfl⟩
  | error e =>
      rw [hp] at h
      dsimp only at h
      by_cases hc : isCaught e = true
      · rw [if_pos hc] at h
        obtain ⟨i, hi, hid⟩ := pageFallback_id page p h
        exact ⟨i, hi, Or.inr hid⟩
      · rw [if_neg hc] at h
        cases h

theorem get_all_pages_id (pages : List JVal) (out : List Page)
    (h : get_all_pages_for_database pages = .ok out) :
    ∀ p ∈ out, ∃ page ∈ pages, ∃ i,
      pyGetItem page "id" = .ok (.str i) ∧ (p.id = i ∨ p.id = stripDashes i) := by
  induction pages generalizing out with
  | nil =>
      cases h
      intro p hp
      cases hp
  | cons pg ps ih =>
      simp only [get_all_pages_for_database, except_bind_ok, except_pure_ok] at h
      obtain ⟨r, hr, rest, hrest, hout⟩ := h
      intro p hp
      cases r with
      | some q =>
          subst hout
          rcases List.mem_cons.mp hp with h1 | h2
          · subst h1
            obtain ⟨i, hi, hid⟩ := pageFromJson_id pg p hr
            exact ⟨pg, by simp, i, hi, hid⟩
          · obtain ⟨page, hpage, i, hi, hid⟩ := ih rest hrest p h2
            exact ⟨page, by simp [hpage], i, hi, hid⟩
      | none =>
          subst hout
          obtain ⟨page, hpage, i, hi, hid⟩ := ih rest hrest p hp
          exact ⟨page, by simp [hpage], i, hi, hid⟩

theorem get_all_database_ids_id (dbs : List JVal) (g b : List Database)
    (h : get_all_database_ids dbs = .ok (g, b)) :
    (∀ db ∈ g, ∃ d ∈ dbs, pyGetItem d "id" = .ok (.str db.id)) ∧
    (∀ db ∈ b, ∃ d ∈ dbs, ∃ i, pyGetItem d "id" = .ok (.str i) ∧ db.id = stripDashes i) := by
  induction dbs generalizing g b with
  | nil =>
      cases h
      exact ⟨fun db hdb => absurd hdb (by simp), fun db hdb => absurd hdb (by simp)⟩
  | cons d ds ih =>
      rw [get_all_database_ids] at h
      cases hp : dbPrimary d with
      | ok db0 =>
          rw [hp] at h
          dsimp only at h
          simp only [except_bind_ok] at h
          obtain ⟨x, hrec, hout⟩ := h
          obtain ⟨g0, b0⟩ := x
          rw [except_pure_ok] at hout
          cases hout
          obtain ⟨ihg, ihb⟩ := ih g0 b0 hrec
          constructor
          · intro db hdb
            rcases List.mem_cons.mp hdb with h1 | h2
            · subst h1
              exact ⟨d, by simp, dbPrimary_id d db hp⟩
            · obtain ⟨d', hd', hres⟩ := ihg db h2
              exact ⟨d', by simp [hd'], hres⟩
          · intro db hdb
            obtain ⟨d', hd', i, hi, hid⟩ := ihb db hdb
            exact ⟨d', by simp [hd'], i, hi, hid⟩
      | error e =>
          rw [hp] at h
          dsimp only at h
          by_cases hc : isCaught e = true
          · rw [if_pos hc] at h
            simp only [except_bind_ok] at h
            obtain ⟨bad, hbad, x, hrec, hout⟩ := h
            obtain ⟨g0, b0⟩ := x
            rw [except_pure_ok] at hout
            cases hout
            obtain ⟨ihg, ihb⟩ := ih g0 b0 hrec
            constructor
            · intro db hdb
              obtain ⟨d', hd', hres⟩ := ihg db hdb
              exact ⟨d', by simp [hd'], hres⟩
            · intro db hdb
              rcases List.mem_cons.mp hdb with h1 | h2
              · subst h1
                obtain ⟨i, hi, hid⟩ := dbFallback_id d db hbad
                exact ⟨d, by simp, i, hi, hid⟩
              · obtain ⟨d', hd', i, hi, hid⟩ := ihb db h2
                exact ⟨d', by simp [hd'], i, hi, hid⟩
          · rw [if_neg hc] at h
            cases h

/-- The concrete raw page of the C2 counterexample: no `"Name"` property,
a well-formed `"Title"` property, id `"ab-cd"`. -/
def c2fallbackPage : JVal :=
  .obj [("url", .str "u"), ("id", .str "ab-cd"),
        ("properties", .obj [("Title", .obj [("title", .arr [.obj [("plain_text", .str "T")]])])])]

/-- A raw page taken through the primary `"Name"` path, id `"p-1"`. -/
def c2goodPage : JVal :=
  .obj [("url", .str "u"), ("id", .str "p-1"),
        ("properties", .obj [("Name", .obj [("title", .arr [.obj [("plain_text", .str "N")]])])])]

/-- C2 counterexample.  The claim says ids are never mutated once
extracted, for every Page returned by `get_all_pages_for_database`.  But a
page whose `"Name"` property is missing and whose `"Title"` property is
well-formed goes through the `except` fallback, which builds the record
with `page["id"].replace("-", "")`: source id `"ab-cd"` comes out as
`"abcd"`. -/
theorem c2_counterexample :
    get_all_pages_for_database [c2fallbackPage] = .ok [⟨"u", "abcd", "T"⟩] ∧
    pyGetItem c2fallbackPage "id" = .ok (.str "ab-cd") ∧
    ("abcd" : String) ≠ "ab-cd" :=
  ⟨by decide, by rfl, by decide⟩

/-- C2 (amended).  Ids are preserved exactly on the primary extraction
paths (`Page` built from the `"Name"` property; `Database` parsed
successfully), while the fallback `"Title"` page path and the faulty
database collection carry the source id with every `"-"` removed; every
record the two enumerations return has one of these two ids. -/
theorem c2_ids_amended :
    (∀ page p, pagePrimary page = .ok p → pyGetItem page "id" = .ok (.str p.id)) ∧
    (∀ page p, pageFallback page = .ok (some p) →
        ∃ i, pyGetItem page "id" = .ok (.str i) ∧ p.id = stripDashes i) ∧
    (∀ d db, dbPrimary d = .ok db → pyGetItem d "id" = .ok (.str db.id)) ∧
    (∀ d db, dbFallback d = .ok db →
        ∃ i, pyGetItem d "id" = .ok (.str i) ∧ db.id = stripDashes i) ∧
    (∀ pages out, get_all_pages_for_database pages = .ok out → ∀ p ∈ out,
        ∃ page ∈ pages, ∃ i, pyGetItem page "id" = .ok (.str i) ∧
          (p.id = i ∨ p.id = stripDashes i)) ∧
    (∀ dbs g b, get_all_database_ids dbs = .ok (g, b) →
        (∀ db ∈ g, ∃ d ∈ dbs, pyGetItem d "id" = .ok (.str db.id)) ∧
        (∀ db ∈ b, ∃ d ∈ dbs, ∃ i,
            pyGetItem d "id" = .ok (.str i) ∧ db.id = stripDashes i)) :=
  ⟨pagePrimary_id, pageFallback_id, dbPrimary_id, dbFallback_id,
   get_all_pages_id, get_all_database_ids_id⟩

/-- C2 witness: the amended theorem applied to a concrete primary-path
page (id kept verbatim) and to the concrete fallback-path page (id
dash-stripped). -/
theorem c2_witness :
    pyGetItem c2goodPage "id" = .ok (.str "p-1") ∧
    (∃ i, pyGetItem c2fallbackPage "id" = .ok (.str i) ∧ "abcd" = stripDashes i) :=
  ⟨c2_ids_amended.1 c2goodPage ⟨"u", "p-1", "N"⟩ (by rfl),
   c2_ids_amended.2.1 c2fallbackPage ⟨"u", "abcd", "T"⟩ (by rfl)⟩

/-! ## Markdown to Notion blocks (`updates.py`)

`markdown_to_blocks` renders markdown to HTML (external `markdown`
library), parses it (external BeautifulSoup) and walks `soup.descendants`
in document order, emitting one block per recognised tag.  The HTML tree
that the external libraries produce is modelled by the mutual inductives
`HNode`/`HForest`; `soup.descendants` visits a tag before its children
(pre-order), which `emitNode`/`emitList` reproduce.  A `BeautifulSoup`
document root has `.name = "[document]"`, the parent name seen by
top-level tags. -/

mutual
/-- A node of the parsed HTML tree: a text string or a tag with a name,
attributes and children. -/
inductive HNode where
  | text (s : String)
  | tag (name : String) (attrs : List (String × String)) (children : HForest)
/-- A sequence of sibling HTML nodes. -/
inductive HForest where
  | nil
  | cons (head : HNode) (tail : HForest)
end

mutual
/-- BeautifulSoup `tag.get_text()`: concatenation of all descendant
strings in document order. -/
def getText : HNode → String
  | .text s => s
  | .tag _ _ cs => getTextF cs
/-- Text of a sequence of siblings (`get_text` lifted to forests). -/
def getTextF : HForest → String
  | .nil => ""
  | .cons n ns => getText n ++ getTextF ns
end

/-- The Notion blocks built by the `create_*_block` constructors of
`updates.py`.  Each constructor there fills a fixed shape (a single
rich-text span holding the tag text, `color: "default"`, empty
`children`, `is_toggleable: False` for headings, an external url for
images); the variable parts are the block type and the text/url, which
this variant records. -/
inductive NBlock where
  | divider
  | paragraph (text : String)
  | heading (level : Nat) (text : String)
  | bulleted_list_item (text : String)
  | numbered_list_item (text : String)
  | image (url : String)
deriving DecidableEq, Repr

/-- Lookup of an HTML attribute (`tag["src"]` raises `KeyError` when the
attribute is missing, handled at the use site). -/
def lookupAttr : List (String × String) → String → Option String
  | [], _ => none
  | (k, v) :: fs, key => if k = key then some v else lookupAttr fs key

/-- The blocks the walker emits for one visited tag: `li` is dispatched
first on the immediate parent's name (`ol` means numbered, anything else
bulleted, mirroring the `tag.parent.name == "ol"` test), every other name
goes through the `tag_to_block` dictionary (`p`, `h1`, `h2`, `h3`, `img`,
`ol`; the dictionary's own `li` entry is shadowed by the explicit check).
A name outside the dictionary emits nothing.  `img` reads `tag["src"]`,
a `KeyError` when absent. -/
def tagBlock (parent : String) (name : String) (attrs : List (String × String))
    (children : HForest) : Except PyErr (List NBlock) :=
  if name = "li" then
    if parent = "ol" then .ok [.numbered_list_item (getTextF children)]
    else .ok [.bulleted_list_item (getTextF children)]
  else if name = "p" then .ok [.paragraph (getTextF children)]
  else if name = "h1" then .ok [.heading 1 (getTextF children)]
  else if name = "h2" then .ok [.heading 2 (getTextF children)]
  else if name = "h3" then .ok [.heading 3 (getTextF children)]
  else if name = "img" then
    match lookupAttr attrs "src" with
    | some u => .ok [.image u]
    | none => .error .keyError
  else if name = "ol" then .ok [.numbered_list_item (getTextF children)]
  else .ok []

mutual
/-- Blocks contributed by one node and its descendants, pre-order: the
node's own blocks (text strings are skipped by the `isinstance(tag,
bs4.Tag)` test), then its children's, which see this tag as parent. -/
def emitNode (parent : String) : HNode → Except PyErr (List NBlock)
  | .text _ => .ok []
  | .tag name attrs children => do
      let own ← tagBlock parent name attrs children
      let rest ← emitList name children
      return own ++ rest
/-- Blocks contributed by a sequence of siblings. -/
def emitList (parent : String) : HForest → Except PyErr (List NBlock)
  | .nil => .ok []
  | .cons n ns => do
      let b ← emitNode parent n
      let bs ← emitList parent ns
      return b ++ bs
end

/-- Embedding of `markdown_to_blocks` over the parsed tag forest: one unconditional
divider block, then the blocks of the `descendants` walk. -/
def markdown_to_blocks (forest : HForest) : Except PyErr (List NBlock) :=
  (emitList "[document]" forest).map (fun bs => NBlock.divider :: bs)

/-- The tag forest the external libraries produce for the markdown input
`"# Title\n\nSome text"` (HTML `<h1>Title</h1>\n<p>Some text</p>`),
whitespace text node included. -/
def c4forest : HForest :=
  .cons (.tag "h1" [] (.cons (.text "Title") .nil))
    (.cons (.text "\n")
      (.cons (.tag "p" [] (.cons (.text "Some text") .nil)) .nil))

example : markdown_to_blocks c4forest
    = .ok [.divider, .heading 1 "Title", .paragraph "Some text"] := by decide


/-- C4.  For every parsed markdown input the first emitted block is a
divider, and for `"# Title\n\nSome text"` the output is exactly a
divider, a heading-1 block with text `"Title"`, then a paragraph block
with text `"Some text"`, in that order. -/
theorem c4_divider_first :
    (∀ forest bs, markdown_to_blocks forest = .ok bs → bs.head? = some NBlock.divider) ∧
    markdown_to_blocks c4forest
      = .ok [.divider, .heading 1 "Title", .paragraph "Some text"] := by
  constructor
  · intro forest bs h
    unfold markdown_to_blocks at h
    cases he : emitList "[document]" forest with
    | ok l =>
        rw [he] at h
        simp [Except.map] at h
        subst h
        rfl
    | error e =>
        rw [he] at h
        simp [Except.map] at h
  · decide

/-- C4 witness: the general divider-first statement discharged at the
concrete `"# Title\n\nSome text"` forest. -/
theorem c4_witness :
    ([NBlock.divider, .heading 1 "Title", .paragraph "Some text"] : List NBlock).head?
      = some NBlock.divider :=
  c4_divider_first.1 c4forest _ c4_divider_first.2

/-- C9.  A tag whose name is outside `{p, h1, h2, h3, li, img, ol}` emits
no block (skipped without error); an `li` tag emits a numbered list item
exactly when its immediate parent tag is `ol` and a bulleted list item
otherwise; plain strings in the tree emit nothing. -/
theorem c9_dispatch :
    (∀ parent name attrs children,
        name ∉ ["p", "h1", "h2", "h3", "li", "img", "ol"] →
        tagBlock parent name attrs children = .ok []) ∧
    (∀ parent attrs children,
        tagBlock parent "li" attrs children =
          .ok [if parent = "ol" then NBlock.numbered_list_item (getTextF children)
               else NBlock.bulleted_list_item (getTextF children)]) ∧
    (∀ parent s, emitNode parent (.text s) = .ok []) := by
  refine ⟨?_, ?_, ?_⟩
  · intro parent name attrs children h
    simp only [List.mem_cons, List.not_mem_nil, or_false, not_or] at h
    obtain ⟨hp, h1, h2, h3, hli, himg, hol⟩ := h
    simp [tagBlock, hp, h1, h2, h3, hli, himg, hol]
  · intro parent attrs children
    by_cases hp : parent = "ol" <;> simp [tagBlock, hp]
  · intro parent s
    rfl

/-- C9 witness: the dispatch theorem at concrete tags — an unrecognised
`div` emits nothing, `li` under `ol` emits a numbered item, `li` under
`ul` a bulleted one. -/
theorem c9_witness :
    tagBlock "[document]" "div" [] HForest.nil = .ok [] ∧
    tagBlock "ol" "li" [] HForest.nil = .ok [.numbered_list_item ""] ∧
    tagBlock "ul" "li" [] HForest.nil = .ok [.bulleted_list_item ""] := by
  refine ⟨c9_dispatch.1 "[document]" "div" [] HForest.nil (by decide), ?_, ?_⟩
  · have h := c9_dispatch.2.1 "ol" [] HForest.nil
    simpa using h
  · have h := c9_dispatch.2.1 "ul" [] HForest.nil
    simpa using h

/-- Children of the `<ol>` produced for the markdown `"1. a\n2. b"`:
whitespace strings interleaved with the two `<li>` tags. -/
def c10list : HForest :=
  .cons (.text "\n")
    (.cons (.tag "li" [] (.cons (.text "a") .nil))
      (.cons (.text "\n")
        (.cons (.tag "li" [] (.cons (.text "b") .nil))
          (.cons (.text "\n") .nil))))

/-- C10.  Because the dispatch dictionary maps `"ol"` to the
numbered-list-item constructor and the `descendants` walk visits the `ol`
tag before its children, the `ol` tag itself emits one numbered list item
whose text is the concatenated text of the whole list, immediately before
the per-`li` blocks; concretely for a two-item list the emission is
`[numbered "\na\nb\n", numbered "a", numbered "b"]`. -/
theorem c10_ol_block :
    (∀ parent attrs children,
        emitNode parent (.tag "ol" attrs children) =
          (emitList "ol" children).map
            (fun bs => NBlock.numbered_list_item (getTextF children) :: bs)) ∧
    emitNode "[document]" (.tag "ol" [] c10list)
      = .ok [.numbered_list_item "\na\nb\n", .numbered_list_item "a",
             .numbered_list_item "b"] := by
  constructor
  · intro parent attrs children
    show (tagBlock parent "ol" attrs children >>= fun own =>
          emitList "ol" children >>= fun rest => pure (own ++ rest)) = _
    simp [tagBlock]
    cases emitList "ol" children <;> simp [Bind.bind, Except.bind, Except.map, pure, Except.pure]
  · decide

/-! ## Appending blocks (`updates.py`, `append_blocks_to_page`)

`for index in range(0, len(blocks), 90): notion.blocks.children.append(
block_id=page_id, children=blocks[index : index + 90])`, then
`return notion.pages.retrieve(page_id=page_id)`.  The network client is
external: the embedding returns the list of append calls (page id and
chunk per call) together with the value of the final retrieve, the latter
supplied by the `retrieve` parameter. -/

/-- The slices `blocks[index : index + 90]` taken by the loop, in call
order. -/
def appendLoop (blocks : List NBlock) (index : Nat) : List (List NBlock) :=
  if index < blocks.length then
    (blocks.drop index).take 90 :: appendLoop blocks (index + 90)
  else []
termination_by blocks.length - index
decreasing_by omega

/-- Embedding of `append_blocks_to_page`: the append calls issued and the refreshed
page returned by the final retrieve. -/
def append_blocks_to_page (retrieve : String → JVal) (page_id : String)
    (blocks : List NBlock) : List (String × List NBlock) × JVal :=
  ((appendLoop blocks 0).map (fun c => (page_id, c)), retrieve page_id)

/-- The loop makes one call per slice: ceiling((length - index)/90) calls. -/
theorem appendLoop_length (blocks : List NBlock) (index : Nat) :
    (appendLoop blocks index).length = (blocks.length - index + 89) / 90 := by
  rw [appendLoop]
  split
  · have ih := appendLoop_length blocks (index + 90)
    simp only [List.length_cons, ih]
    omega
  · simp only [List.length_nil]
    omega
termination_by blocks.length - index
decreasing_by omega

/-- Every slice holds at most 90 blocks. -/
theorem appendLoop_le90 (blocks : List NBlock) (index : Nat) :
    ∀ c ∈ appendLoop blocks index, c.length ≤ 90 := by
  rw [appendLoop]
  split
  · intro c hc
    rcases List.mem_cons.mp hc with h1 | h2
    · subst h1
      have := List.length_take 90 (blocks.drop index)
      omega
    · exact appendLoop_le90 blocks (index + 90) c h2
  · intro c hc
    cases hc
termination_by blocks.length - index
decreasing_by omega

/-- The slices concatenate back to the suffix from `index`: the calls
cover the block list sequentially in order. -/
theorem appendLoop_join (blocks : List NBlock) (index : Nat) :
    (appendLoop blocks index).flatten = blocks.drop index := by
  rw [appendLoop]
  split
  · have ih := appendLoop_join blocks (index + 90)
    simp only [List.flatten_cons, ih]
    have hdd : blocks.drop (index + 90) = (blocks.drop index).drop 90 := by
      rw [List.drop_drop]
    rw [hdd, List.take_append_drop]
  · simp only [List.flatten_nil]
    have : blocks.length ≤ index := by omega
    rw [List.drop_eq_nil_of_le this]
termination_by blocks.length - index
decreasing_by omega

/-- The loop on 181 blocks makes exactly the three slices 90/90/1. -/
theorem appendLoop_181 :
    ((appendLoop (List.replicate 181 NBlock.divider) 0).map List.length) = [90, 90, 1] := by
  rw [appendLoop, if_pos (by rw [List.length_replicate]; omega)]
  rw [appendLoop, if_pos (by rw [List.length_replicate]; omega)]
  rw [appendLoop, if_pos (by rw [List.length_replicate]; omega)]
  rw [appendLoop, if_neg (by rw [List.length_replicate]; omega)]
  simp only [List.map_cons, List.map_nil, List.length_take, List.length_drop,
    List.length_replicate]
  norm_num
/-- C5.  `append_blocks_to_page` issues ceiling(n/90) append calls, each
carrying at most 90 blocks, whose chunks concatenate back to the input
list in order; it returns the page retrieved from the API after
appending; and on 181 blocks it issues exactly 3 calls of sizes
90, 90 and 1. -/
theorem c5_chunking :
    (∀ (retrieve : String → JVal) (pid : String) (blocks : List NBlock),
        ((append_blocks_to_page retrieve pid blocks).1.length
            = (blocks.length + 89) / 90) ∧
        (∀ c ∈ (append_blocks_to_page retrieve pid blocks).1, c.2.length ≤ 90) ∧
        (((append_blocks_to_page retrieve pid blocks).1.map (fun c => c.2)).flatten
            = blocks) ∧
        ((append_blocks_to_page retrieve pid blocks).2 = retrieve pid)) ∧
    ((append_blocks_to_page (fun _ => JVal.null) "p"
        (List.replicate 181 NBlock.divider)).1.map (fun c => c.2.length)
      = [90, 90, 1]) := by
  constructor
  · intro retrieve pid blocks
    refine ⟨?_, ?_, ?_, rfl⟩
    · simp [append_blocks_to_page, appendLoop_length]
    · intro c hc
      simp only [append_blocks_to_page, List.mem_map] at hc
      obtain ⟨chunk, hchunk, rfl⟩ := hc
      exact appendLoop_le90 blocks 0 chunk hchunk
    · have h := appendLoop_join blocks 0
      simp only [List.drop_zero] at h
      simp [append_blocks_to_page, List.map_map, Function.comp, h]
  · show ((appendLoop (List.replicate 181 NBlock.divider) 0).map
        (fun c => ("p", c))).map (fun c => c.2.length) = [90, 90, 1]
    rw [List.map_map]
    exact appendLoop_181
/-- C5 witness: the per-call bound discharged at a concrete call of the
181-block run (the first chunk). -/
theorem c5_witness :
    ("p", (List.replicate 181 NBlock.divider).take 90).2.length ≤ 90 := by
  refine (c5_chunking.1 (fun _ => JVal.null) "p" (List.replicate 181 NBlock.divider)).2.1
    ("p", (List.replicate 181 NBlock.divider).take 90) ?_
  show _ ∈ (appendLoop (List.replicate 181 NBlock.divider) 0).map (fun c => ("p", c))
  rw [appendLoop, if_pos (by rw [List.length_replicate]; omega)]
  exact List.mem_map_of_mem _ (List.mem_cons_self _ _)

/-! ## Setting a relation property (`updates.py`, `update_refs_property`)

`prop = page["properties"][property_name]` is evaluated before the `try`,
so its `KeyError` propagates.  Inside the `try`, each title is stripped
and resolved through `title_to_id.get`; a missing entry raises
`ValueError` before the single `notion.pages.update` call that follows
the loop, and a resolved entry appends `{"id": ref_id}` to
`prop["relation"]` (a `KeyError` when the property has no `"relation"`
key) and then prints a message that reads `page["id"]` (another
`KeyError` source).  The final update call evaluates `page["id"]` for
its `page_id` argument before any network traffic.  The `except
KeyError` handler formats `page.id`/`page.title` — attribute access on
a plain dict — so the handler itself raises `AttributeError`.  The
embedding returns the result together with the number of
`notion.pages.update` network calls issued. -/

/-- Python `str.isspace` characters handled by `.strip()`. -/
def pyIsSpace (c : Char) : Bool :=
  c = ' ' || c = '\t' || c = '\n' || c = '\r'

/-- Python `title.strip()`. -/
def pyStrip (s : String) : String :=
  String.mk (((s.data.dropWhile pyIsSpace).reverse.dropWhile pyIsSpace).reverse)

/-- Lookup `title_to_id.get(key)` on the precomputed mapping. -/
def lookupStr : List (String × String) → String → Option String
  | [], _ => none
  | (k, v) :: fs, key => if k = key then some v else lookupStr fs key

/-- Replace the binding of a key in a dictionary. -/
def setField : List (String × JVal) → String → JVal → List (String × JVal)
  | [], k, v => [(k, v)]
  | (k0, v0) :: fs, k, v =>
      if k0 = k then (k0, v) :: fs else (k0, v0) :: setField fs k v

/-- Embedding of `prop["relation"].append({"id": ref_id})`: `KeyError` when the key is
missing, `AttributeError` when it is not a list. -/
def pyAppendRelation (prop : JVal) (rid : String) : Except PyErr JVal :=
  match prop with
  | .obj fs =>
      match lookupField fs "relation" with
      | some (.arr xs) =>
          .ok (.obj (setField fs "relation" (.arr (xs ++ [.obj [("id", .str rid)]]))))
      | some _ => .error .attributeError
      | none => .error .keyError
  | _ => .error .typeError

/-- The `for title in titles` loop: resolve, raise `ValueError` on a
missing mapping entry, append to the relation list, then print the
progress message whose f-string reads `page["id"]` (updates.py line
257), a `KeyError` when the page has no `"id"` key. -/
def refsLoop (m : List (String × String)) (pn : String) (page : JVal)
    (prop : JVal) : List String → Except PyErr JVal
  | [] => .ok prop
  | t :: ts =>
      match lookupStr m (pyStrip t) with
      | none => .error (.valueError ("No " ++ pn ++ " found with title " ++ t))
      | some rid =>
          match pyAppendRelation prop rid with
          | .ok prop2 =>
              match pyGetItem page "id" with
              | .ok _ => refsLoop m pn page prop2 ts
              | .error e => .error e
          | .error e => .error e

/-- Embedding of `update_refs_property`: result and number of network
update calls.  After the loop, `notion.pages.update(page_id=page["id"],
...)` evaluates `page["id"]` before the network call.  A `keyError`
escaping the `try` body is caught, but the handler's `page.id`
attribute access on the dict raises `AttributeError`. -/
def update_refs_property (page : JVal) (property_name : String)
    (titles : List String) (title_to_id : List (String × String)) :
    Except PyErr JVal × Nat :=
  match pyGetItem page "properties" with
  | .error e => (.error e, 0)
  | .ok props =>
      match pyGetItem props property_name with
      | .error e => (.error e, 0)
      | .ok prop =>
          match refsLoop title_to_id property_name page prop titles with
          | .ok newProp =>
              match pyGetItem page "id" with
              | .ok _ => (.ok newProp, 1)
              | .error .keyError => (.error .attributeError, 0)
              | .error e => (.error e, 0)
          | .error .keyError => (.error .attributeError, 0)
          | .error e => (.error e, 0)

/-- The property value carries a `"relation"` list. -/
def relationIsArr (prop : JVal) : Bool :=
  match prop with
  | .obj fs =>
      match lookupField fs "relation" with
      | some (.arr _) => true
      | _ => false
  | _ => false

/-- Setting a key makes it the value found. -/
theorem lookupField_setField (fs : List (String × JVal)) (k : String) (v : JVal) :
    lookupField (setField fs k v) k = some v := by
  induction fs with
  | nil => simp [setField, lookupField]
  | cons f fs ih =>
      obtain ⟨k0, v0⟩ := f
      by_cases h : k0 = k <;> simp [setField, lookupField, h, ih]

/-- Appending to an existing relation list succeeds and keeps it a list. -/
theorem pyAppendRelation_pres (prop : JVal) (rid : String)
    (h : relationIsArr prop = true) :
    ∃ prop2, pyAppendRelation prop rid = .ok prop2 ∧ relationIsArr prop2 = true := by
  cases prop with
  | obj fs =>
      rw [relationIsArr] at h
      cases hl : lookupField fs "relation" with
      | none => rw [hl] at h; cases h
      | some v =>
          cases v with
          | arr xs =>
              refine ⟨_, by rw [pyAppendRelation, hl], ?_⟩
              rw [relationIsArr, lookupField_setField]
          | null => rw [hl] at h; cases h
          | bool b => rw [hl] at h; cases h
          | num n => rw [hl] at h; cases h
          | str s => rw [hl] at h; cases h
          | obj gs => rw [hl] at h; cases h
  | null => cases h
  | bool b => cases h
  | num n => cases h
  | str s => cases h
  | arr xs => cases h

/-- The loop only completes (reaching the network call) when every title
resolves. -/
theorem refsLoop_ok_all_mapped (m : List (String × String)) (pn : String)
    (titles : List String) :
    ∀ page prop x, refsLoop m pn page prop titles = .ok x →
      ∀ t ∈ titles, (lookupStr m (pyStrip t)).isSome := by
  induction titles with
  | nil =>
      intro page prop x _ t ht
      cases ht
  | cons t0 ts ih =>
      intro page prop x h t ht
      rw [refsLoop] at h
      cases hl : lookupStr m (pyStrip t0) with
      | none => rw [hl] at h; cases h
      | some rid =>
          rw [hl] at h
          dsimp only at h
          cases ha : pyAppendRelation prop rid with
          | ok prop2 =>
              rw [ha] at h
              dsimp only at h
              cases hid : pyGetItem page "id" with
              | ok idv =>
                  rw [hid] at h
                  rcases List.mem_cons.mp ht with h1 | h2
                  · subst h1; simp [hl]
                  · exact ih page prop2 x h t h2
              | error e => rw [hid] at h; cases h
          | error e => rw [ha] at h; cases h

/-- With an intact relation list and a page that has an `"id"` key, the
loop raises `ValueError` for the first unresolved title. -/
theorem refsLoop_first_unmapped (m : List (String × String)) (pn : String)
    (titles : List String) :
    ∀ page prop t0 i, relationIsArr prop = true →
      pyGetItem page "id" = .ok i →
      titles.find? (fun t => (lookupStr m (pyStrip t)).isNone) = some t0 →
      refsLoop m pn page prop titles
        = .error (.valueError ("No " ++ pn ++ " found with title " ++ t0)) := by
  induction titles with
  | nil =>
      intro page prop t0 i _ _ hf
      simp [List.find?] at hf
  | cons t ts ih =>
      intro page prop t0 i hrel hid hf
      rw [refsLoop]
      cases hl : lookupStr m (pyStrip t) with
      | none =>
          rw [List.find?_cons] at hf
          simp [hl] at hf
          subst hf
          rfl
      | some rid =>
          rw [List.find?_cons] at hf
          simp [hl] at hf
          obtain ⟨prop2, hp2, hrel2⟩ := pyAppendRelation_pres prop rid hrel
          dsimp only
          rw [hp2]
          dsimp only
          rw [hid]
          exact ih page prop2 t0 i hrel2 hid hf

/-- Whether a result is an (unresolved-reference) `ValueError`. -/
def isValueErrorRes (r : Except PyErr JVal) : Bool :=
  match r with
  | .error (.valueError _) => true
  | _ => false

/-- C6 counterexample page: the `"Areas"` property exists but has no
`"relation"` key. -/
def c6page : JVal :=
  .obj [("properties", .obj [("Areas", .obj [])]), ("id", .str "p1")]

/-- A page whose `"Areas"` property carries an (empty) relation list. -/
def c6goodPage : JVal :=
  .obj [("properties", .obj [("Areas", .obj [("relation", .arr [])])]),
        ("id", .str "p1")]

/-- C6 counterexample.  The claim says that whenever some title has no
mapping entry, `update_refs_property` raises an "unresolved reference"
error.  On a page whose property lacks a `"relation"` key, with titles
`["a", "b"]` and mapping `{"a": "id1"}` (so `"b"` is unresolved), the
first iteration resolves `"a"` and then `prop["relation"].append`
raises `KeyError`; the `except KeyError` handler's `page.id` on a dict
raises `AttributeError` — no `ValueError` is ever raised, though no
network update call is made. -/
theorem c6_counterexample :
    (update_refs_property c6page "Areas" ["a", "b"] [("a", "id1")]).1
        = .error .attributeError ∧
    isValueErrorRes (update_refs_property c6page "Areas" ["a", "b"] [("a", "id1")]).1
        = false ∧
    (update_refs_property c6page "Areas" ["a", "b"] [("a", "id1")]).2 = 0 := by
  refine ⟨by rfl, by decide, by decide⟩

/-- C6 (amended).  Whenever some title (after stripping) has no mapping
entry, no network update call is issued, so the external page state is
unchanged; and provided the page has an `"id"` key and its named
property is present and carries a relation array, the call raises the
"unresolved reference" `ValueError` naming the first unresolved title
(local mutation of the in-memory relation list for earlier resolved
titles is permitted). -/
theorem c6_unresolved_amended :
    (∀ page pn titles m,
        (∃ t ∈ titles, lookupStr m (pyStrip t) = none) →
        (update_refs_property page pn titles m).2 = 0) ∧
    (∀ page pn titles m props prop t0 i,
        pyGetItem page "properties" = .ok props →
        pyGetItem props pn = .ok prop →
        relationIsArr prop = true →
        pyGetItem page "id" = .ok i →
        titles.find? (fun t => (lookupStr m (pyStrip t)).isNone) = some t0 →
        (update_refs_property page pn titles m).1
          = .error (.valueError ("No " ++ pn ++ " found with title " ++ t0))) := by
  constructor
  · intro page pn titles m hex
    rw [update_refs_property]
    cases h1 : pyGetItem page "properties" with
    | error e => rfl
    | ok props =>
        dsimp only
        cases h2 : pyGetItem props pn with
        | error e => rfl
        | ok prop =>
            dsimp only
            cases h3 : refsLoop m pn page prop titles with
            | ok x =>
                obtain ⟨t, ht, hnone⟩ := hex
                have := refsLoop_ok_all_mapped m pn titles page prop x h3 t ht
                rw [hnone] at this
                cases this
            | error e => cases e <;> rfl
  · intro page pn titles m props prop t0 i h1 h2 hrel hid hfind
    rw [update_refs_property, h1]
    dsimp only
    rw [h2]
    dsimp only
    rw [refsLoop_first_unmapped m pn titles page prop t0 i hrel hid hfind]

/-- C6 witness: the amended theorem at a concrete page with a relation
array, titles `["a", "b"]` and mapping `{"a": "id1"}`. -/
theorem c6_witness :
    (update_refs_property c6goodPage "Areas" ["a", "b"] [("a", "id1")]).1
        = .error (.valueError "No Areas found with title b") ∧
    (update_refs_property c6goodPage "Areas" ["a", "b"] [("a", "id1")]).2 = 0 :=
  ⟨c6_unresolved_amended.2 c6goodPage "Areas" ["a", "b"] [("a", "id1")]
      (.obj [("Areas", .obj [("relation", .arr [])])])
      (.obj [("relation", .arr [])]) "b" (.str "p1") rfl rfl (by decide) rfl
      (by decide),
   c6_unresolved_amended.1 c6goodPage "Areas" ["a", "b"] [("a", "id1")]
      ⟨"b", by decide, by decide⟩⟩

/-! ## Attribute extraction (`extractions.py`) -/

/-- Embedding of `extract_title`:
`title_data = data["properties"].get("Title") or data["properties"].get("Name")`
followed by
`title_data["title"][0]["plain_text"] if title_data and title_data.get("title") else None`.
The embedding evaluates the `"Name"` lookup eagerly; Python's `or`
short-circuits it when `"Title"` is truthy, but once the `"Title"` lookup
succeeded the receiver is a dictionary and the `"Name"` lookup cannot
fail, so the results agree. -/
def extract_title (data : JVal) : Except PyErr JVal :=
  match pyGetItem data "properties" with
  | .error e => .error e
  | .ok props =>
      match pyDictGet props "Title" with
      | .error e => .error e
      | .ok titleJ =>
          match pyDictGet props "Name" with
          | .error e => .error e
          | .ok nameJ =>
              let title_data := pyOr titleJ nameJ
              if truthy title_data then
                match pyDictGet title_data "title" with
                | .error e => .error e
                | .ok tl =>
                    if truthy tl then
                      match pyGetItem title_data "title" with
                      | .error e => .error e
                      | .ok tl2 =>
                          match pyIndex tl2 0 with
                          | .error e => .error e
                          | .ok sp => pyGetItem sp "plain_text"
                    else .ok .null
              else .ok .null

/-- A successful `.get` means the receiver was a dictionary. -/
theorem pyDictGet_ok_obj {v : JVal} {k : String} {x : JVal}
    (h : pyDictGet v k = .ok x) : ∃ fs, v = .obj fs := by
  cases v with
  | obj fs => exact ⟨fs, rfl⟩
  | null => cases h
  | bool b => cases h
  | num n => cases h
  | str s => cases h
  | arr xs => cases h

/-- A truthy `.get` result is also what subscripting returns. -/
theorem pyGetItem_of_dictGet {v : JVal} {k : String} {x : JVal}
    (h : pyDictGet v k = .ok x) (hx : truthy x = true) : pyGetItem v k = .ok x := by
  obtain ⟨fs, rfl⟩ := pyDictGet_ok_obj h
  rw [pyDictGet] at h
  cases hl : lookupField fs k with
  | some w =>
      rw [hl] at h
      cases h
      rw [pyGetItem, hl]
  | none =>
      rw [hl] at h
      cases h
      cases hx

/-- C7.  `extract_title` returns the plain text of the first rich-text
span of the `"Title"` property when that property is present (truthy)
with a non-empty `"title"` array; otherwise the first span of the
`"Name"` property under the same condition; and it returns no value
(`None`), without raising, when neither property is present (both
lookups falsy) or when the selected property's `"title"` array is empty
or missing. -/
theorem c7_extract_title :
    (∀ data props td sp rest p,
        pyGetItem data "properties" = .ok props →
        pyDictGet props "Title" = .ok td →
        truthy td = true →
        pyDictGet td "title" = .ok (.arr (sp :: rest)) →
        pyGetItem sp "plain_text" = .ok (.str p) →
        extract_title data = .ok (.str p)) ∧
    (∀ data props td nd sp rest p,
        pyGetItem data "properties" = .ok props →
        pyDictGet props "Title" = .ok td →
        truthy td = false →
        pyDictGet props "Name" = .ok nd →
        truthy nd = true →
        pyDictGet nd "title" = .ok (.arr (sp :: rest)) →
        pyGetItem sp "plain_text" = .ok (.str p) →
        extract_title data = .ok (.str p)) ∧
    (∀ data props td nd,
        pyGetItem data "properties" = .ok props →
        pyDictGet props "Title" = .ok td →
        pyDictGet props "Name" = .ok nd →
        truthy (pyOr td nd) = false →
        extract_title data = .ok .null) ∧
    (∀ data props td nd tl,
        pyGetItem data "properties" = .ok props →
        pyDictGet props "Title" = .ok td →
        pyDictGet props "Name" = .ok nd →
        truthy (pyOr td nd) = true →
        pyDictGet (pyOr td nd) "title" = .ok tl →
        truthy tl = false →
        extract_title data = .ok .null) := by
  refine ⟨?_, ?_, ?_, ?_⟩
  · intro data props td sp rest p h1 h2 htd h3 h4
    obtain ⟨fs, rfl⟩ := pyDictGet_ok_obj h2
    rw [extract_title, h1]
    dsimp only
    rw [h2]
    dsimp only
    have hname : ∃ nd, pyDictGet (JVal.obj fs) "Name" = .ok nd := ⟨_, rfl⟩
    obtain ⟨nd, hnd⟩ := hname
    rw [hnd]
    dsimp only
    rw [show pyOr td nd = td from by rw [pyOr, if_pos htd]]
    rw [if_pos htd, h3]
    dsimp only
    rw [if_pos (by rfl)]
    rw [pyGetItem_of_dictGet h3 (by rfl)]
    dsimp only
    rw [show pyIndex (JVal.arr (sp :: rest)) 0 = .ok sp from by simp [pyIndex]]
    exact h4
  · intro data props td nd sp rest p h1 h2 htd h3 hnd h4 h5
    rw [extract_title, h1]
    dsimp only
    rw [h2]
    dsimp only
    rw [h3]
    dsimp only
    rw [show pyOr td nd = nd from by rw [pyOr, htd]; rfl]
    rw [if_pos hnd, h4]
    dsimp only
    rw [if_pos (by rfl)]
    rw [pyGetItem_of_dictGet h4 (by rfl)]
    dsimp only
    rw [show pyIndex (JVal.arr (sp :: rest)) 0 = .ok sp from by simp [pyIndex]]
    exact h5
  · intro data props td nd h1 h2 h3 hfalse
    rw [extract_title, h1]
    dsimp only
    rw [h2]
    dsimp only
    rw [h3]
    dsimp only
    rw [if_neg (by rw [hfalse]; exact fun h => Bool.noConfusion h)]
  · intro data props td nd tl h1 h2 h3 htrue h4 hfalse
    rw [extract_title, h1]
    dsimp only
    rw [h2]
    dsimp only
    rw [h3]
    dsimp only
    rw [if_pos htrue, h4]
    dsimp only
    rw [if_neg (by rw [hfalse]; exact fun h => Bool.noConfusion h)]

/-- A page with a well-formed `"Title"` property. -/
def c7titlePage : JVal :=
  .obj [("properties", .obj [("Title", .obj [("title", .arr [.obj [("plain_text", .str "T")]])])])]

/-- A page with only a well-formed `"Name"` property. -/
def c7namePage : JVal :=
  .obj [("properties", .obj [("Name", .obj [("title", .arr [.obj [("plain_text", .str "N")]])])])]

/-- A page with neither `"Title"` nor `"Name"`. -/
def c7noTitlePage : JVal :=
  .obj [("properties", .obj [])]

/-- A page whose `"Title"` property has an empty `"title"` array (the
`or` chain selects it, so the well-formed `"Name"` is never consulted
and the result is no value). -/
def c7emptyTitlePage : JVal :=
  .obj [("properties", .obj [("Title", .obj [("title", .arr [])]),
                             ("Name", .obj [("title", .arr [.obj [("plain_text", .str "N")]])])])]

/-- C7 witness: the four cases of the theorem at concrete pages. -/
theorem c7_witness :
    extract_title c7titlePage = .ok (.str "T") ∧
    extract_title c7namePage = .ok (.str "N") ∧
    extract_title c7noTitlePage = .ok .null ∧
    extract_title c7emptyTitlePage = .ok .null :=
  ⟨c7_extract_title.1 c7titlePage
      (.obj [("Title", .obj [("title", .arr [.obj [("plain_text", .str "T")]])])])
      (.obj [("title", .arr [.obj [("plain_text", .str "T")]])])
      (.obj [("plain_text", .str "T")]) [] "T" rfl rfl rfl rfl rfl,
   c7_extract_title.2.1 c7namePage
      (.obj [("Name", .obj [("title", .arr [.obj [("plain_text", .str "N")]])])])
      .null
      (.obj [("title", .arr [.obj [("plain_text", .str "N")]])])
      (.obj [("plain_text", .str "N")]) [] "N" rfl rfl rfl rfl rfl rfl rfl,
   c7_extract_title.2.2.1 c7noTitlePage (.obj []) .null .null rfl rfl rfl rfl,
   c7_extract_title.2.2.2 c7emptyTitlePage
      (.obj [("Title", .obj [("title", .arr [])]),
             ("Name", .obj [("title", .arr [.obj [("plain_text", .str "N")]])])])
      (.obj [("title", .arr [])])
      (.obj [("title", .arr [.obj [("plain_text", .str "N")]])])
      (.arr []) rfl rfl rfl rfl rfl rfl⟩

/-- Embedding of `extract_stars`:
`future_value_rank = data["properties"].get("Future Value Rank", {}).get("select")`
then `future_value_rank.get("name") if future_value_rank else None`.
A null (or non-dict) stored `"Future Value Rank"` value makes the second
`.get` raise `AttributeError`. -/
def extract_stars (data : JVal) : Except PyErr JVal :=
  match pyGetItem data "properties" with
  | .error e => .error e
  | .ok props =>
      match pyDictGetD props "Future Value Rank" (.obj []) with
      | .error e => .error e
      | .ok fvrProp =>
          match pyDictGet fvrProp "select" with
          | .error e => .error e
          | .ok fvr =>
              if truthy fvr then pyDictGet fvr "name" else .ok .null

/-- The long relation property name read by `extract_project_name`. -/
def projKey : String :=
  "Related to Projects Database (Related to Media Vault (Property))"

/-- Embedding of `extract_project_name`: read both relation lists eagerly, then take
`related_projects[0].get("name")` when the first is non-empty, else
`projects[0].get("name")` when the second is, else `None`; each `[0]`
entry is guarded by its own truthiness test before `.get("name")`. -/
def extract_project_name (data : JVal) : Except PyErr JVal :=
  match pyGetItem data "properties" with
  | .error e => .error e
  | .ok props =>
      match pyDictGetD props projKey (.obj []) with
      | .error e => .error e
      | .ok rpProp =>
          match pyDictGet rpProp "relation" with
          | .error e => .error e
          | .ok related_projects =>
              match pyDictGetD props "Projects" (.obj []) with
              | .error e => .error e
              | .ok pProp =>
                  match pyDictGet pProp "relation" with
                  | .error e => .error e
                  | .ok projects =>
                      if truthy related_projects then
                        match pyIndex related_projects 0 with
                        | .error e => .error e
                        | .ok el =>
                            if truthy el then pyDictGet el "name" else .ok .null
                      else if truthy projects then
                        match pyIndex projects 0 with
                        | .error e => .error e
                        | .ok el =>
                            if truthy el then pyDictGet el "name" else .ok .null
                      else .ok .null

/-- Embedding of `extract_external_url`: `url_property = data["properties"].get("URL", {})`
then `url_property.get("url") if url_property else None`. -/
def extract_external_url (data : JVal) : Except PyErr JVal :=
  match pyGetItem data "properties" with
  | .error e => .error e
  | .ok props =>
      match pyDictGetD props "URL" (.obj []) with
      | .error e => .error e
      | .ok urlProp =>
          if truthy urlProp then pyDictGet urlProp "url" else .ok .null

/-- Inputs on which `extract_stars` is total: `"properties"` is a
dictionary, the stored `"Future Value Rank"` value (when present) is a
dictionary, and its `"select"` value is a dictionary whenever truthy. -/
def wfStars (data : JVal) : Bool :=
  match pyGetItem data "properties" with
  | .ok (.obj fs) =>
      (match lookupField fs "Future Value Rank" with
       | none => true
       | some (.obj gs) =>
           (match lookupField gs "select" with
            | none => true
            | some v => !truthy v || v.isObj)
       | some _ => false)
  | _ => false

/-- A non-empty relation list whose first entry is a dictionary when
truthy. -/
def headObjOk : List JVal → Bool
  | e :: _ => !truthy e || e.isObj
  | [] => false

/-- A list value acceptable for `rel[0].get("name")`. -/
def isArrHeadOk : JVal → Bool
  | .arr xs => headObjOk xs
  | _ => false

/-- A stored `"relation"` value that the code can consume: anything falsy
is skipped; a truthy value must be a list fit for `[0].get`. -/
def relValueWF (v : JVal) : Bool :=
  !truthy v || isArrHeadOk v

/-- A relation-bearing property that the code can consume. -/
def relFieldWF (fs : List (String × JVal)) (k : String) : Bool :=
  match lookupField fs k with
  | none => true
  | some (.obj gs) =>
      (match lookupField gs "relation" with
       | none => true
       | some v => relValueWF v)
  | some _ => false

/-- Inputs on which `extract_project_name` is total. -/
def wfProjectName (data : JVal) : Bool :=
  match pyGetItem data "properties" with
  | .ok (.obj fs) => relFieldWF fs projKey && relFieldWF fs "Projects"
  | _ => false

/-- Inputs on which `extract_external_url` is total: the stored `"URL"`
value must be a dictionary whenever truthy. -/
def wfExternalUrl (data : JVal) : Bool :=
  match pyGetItem data "properties" with
  | .ok (.obj fs) =>
      (match lookupField fs "URL" with
       | none => true
       | some v => !truthy v || v.isObj)
  | _ => false

/-- C8 counterexample record: well-formed by the claim's own definition
(a dict with a `"properties"` key) with a null `"Future Value Rank"`. -/
def c8nullStarsPage : JVal :=
  .obj [("properties", .obj [("Future Value Rank", .null)])]

/-- C8 counterexample.  The claim says the extractors return `None` when
an intermediate value is missing **or null** and never raise; but on a
record whose `"Future Value Rank"` property is null,
`data["properties"].get("Future Value Rank", {})` returns the stored
`None` and the chained `.get("select")` raises `AttributeError`. -/
theorem c8_counterexample :
    extract_stars c8nullStarsPage = .error .attributeError := by rfl

/-- Totality of `extract_stars` on its well-formed inputs. -/
theorem extract_stars_total (data : JVal) (h : wfStars data = true) :
    ∃ v, extract_stars data = .ok v := by
  rw [wfStars] at h
  cases hp : pyGetItem data "properties" with
  | error e => rw [hp] at h; cases h
  | ok props =>
      rw [hp] at h
      rw [extract_stars, hp]
      dsimp only
      cases props with
      | obj fs =>
          dsimp only at h
          rw [pyDictGetD]
          dsimp only
          cases hl : lookupField fs "Future Value Rank" with
          | none =>
              exact ⟨.null, rfl⟩
          | some v =>
              rw [hl] at h
              cases v with
              | obj gs =>
                  dsimp only at h
                  rw [pyDictGet]
                  dsimp only
                  cases hs : lookupField gs "select" with
                  | none => exact ⟨.null, rfl⟩
                  | some w =>
                      rw [hs] at h
                      dsimp only at h
                      cases ht : truthy w with
                      | false => rw [if_neg (by decide)]; exact ⟨.null, rfl⟩
                      | true =>
                          rw [ht] at h
                          simp only [Bool.not_true, Bool.false_or] at h
                          rw [if_pos rfl]
                          dsimp only
                          cases w with
                          | obj ws => exact ⟨_, rfl⟩
                          | null => cases h
                          | bool b => cases h
                          | num n => cases h
                          | str s => cases h
                          | arr xs => cases h
              | null => cases h
              | bool b => cases h
              | num n => cases h
              | str s => cases h
              | arr xs => cases h
      | null => cases h
      | bool b => cases h
      | num n => cases h
      | str s => cases h
      | arr xs => cases h
/-- Reading a well-formed relation property yields a consumable value. -/
theorem relationGet_ok (fs : List (String × JVal)) (k : String)
    (h : relFieldWF fs k = true) :
    ∃ rel, pyDictGet (match lookupField fs k with
                      | some x => x
                      | none => .obj []) "relation" = .ok rel ∧ relValueWF rel = true := by
  rw [relFieldWF] at h
  cases hl : lookupField fs k with
  | none => exact ⟨.null, rfl, rfl⟩
  | some v =>
      rw [hl] at h
      cases v with
      | obj gs =>
          dsimp only at h
          rw [pyDictGet]
          cases hr : lookupField gs "relation" with
          | none => exact ⟨.null, rfl, rfl⟩
          | some w =>
              rw [hr] at h
              exact ⟨w, rfl, h⟩
      | null => cases h
      | bool b => cases h
      | num n => cases h
      | str s => cases h
      | arr xs => cases h

/-- The `rel[0].get("name") if rel[0] else None` branch is total on a
consumable truthy relation value. -/
theorem relBranch_total (rel : JVal) (hwf : relValueWF rel = true)
    (ht : truthy rel = true) :
    ∃ v, ((match pyIndex rel 0 with
           | .error e => .error e
           | .ok el => if truthy el = true then pyDictGet el "name"
                       else .ok .null) : Except PyErr JVal) = .ok v := by
  rw [relValueWF, ht] at hwf
  simp only [Bool.not_true, Bool.false_or] at hwf
  cases rel with
  | arr xs =>
      rw [isArrHeadOk] at hwf
      cases xs with
      | nil => cases hwf
      | cons e rest =>
          rw [headObjOk] at hwf
          rw [show pyIndex (JVal.arr (e :: rest)) 0 = .ok e from by simp [pyIndex]]
          dsimp only
          cases hte : truthy e with
          | false => rw [if_neg (by decide)]; exact ⟨.null, rfl⟩
          | true =>
              rw [hte] at hwf
              simp only [Bool.not_true, Bool.false_or] at hwf
              rw [if_pos rfl]
              cases e with
              | obj ws => exact ⟨_, rfl⟩
              | null => cases hwf
              | bool b => cases hwf
              | num n => cases hwf
              | str s => cases hwf
              | arr ys => cases hwf
  | null => cases hwf
  | bool b => cases hwf
  | num n => cases hwf
  | str s => cases hwf
  | obj gs => cases hwf
/-- Totality of `extract_project_name` on its well-formed inputs. -/
theorem extract_project_name_total (data : JVal) (h : wfProjectName data = true) :
    ∃ v, extract_project_name data = .ok v := by
  rw [wfProjectName] at h
  cases hp : pyGetItem data "properties" with
  | error e => rw [hp] at h; cases h
  | ok props =>
      rw [hp] at h
      rw [extract_project_name, hp]
      dsimp only
      cases props with
      | obj fs =>
          dsimp only at h
          rw [Bool.and_eq_true] at h
          obtain ⟨h1, h2⟩ := h
          obtain ⟨rel1, he1, hwf1⟩ := relationGet_ok fs projKey h1
          obtain ⟨rel2, he2, hwf2⟩ := relationGet_ok fs "Projects" h2
          rw [pyDictGetD]
          dsimp only
          rw [he1]
          dsimp only
          rw [pyDictGetD]
          dsimp only
          rw [he2]
          dsimp only
          cases ht1 : truthy rel1 with
          | true =>
              rw [if_pos rfl]
              exact relBranch_total rel1 hwf1 ht1
          | false =>
              rw [if_neg (by decide)]
              cases ht2 : truthy rel2 with
              | true =>
                  rw [if_pos rfl]
                  exact relBranch_total rel2 hwf2 ht2
              | false =>
                  rw [if_neg (by decide)]
                  exact ⟨.null, rfl⟩
      | null => cases h
      | bool b => cases h
      | num n => cases h
      | str s => cases h
      | arr xs => cases h

/-- Totality of `extract_external_url` on its well-formed inputs. -/
theorem extract_external_url_total (data : JVal) (h : wfExternalUrl data = true) :
    ∃ v, extract_external_url data = .ok v := by
  rw [wfExternalUrl] at h
  cases hp : pyGetItem data "properties" with
  | error e => rw [hp] at h; cases h
  | ok props =>
      rw [hp] at h
      rw [extract_external_url, hp]
      dsimp only
      cases props with
      | obj fs =>
          dsimp only at h
          rw [pyDictGetD]
          dsimp only
          cases hl : lookupField fs "URL" with
          | none =>
              rw [if_neg (by decide)]
              exact ⟨.null, rfl⟩
          | some v =>
              rw [hl] at h
              dsimp only at h
              cases htv : truthy v with
              | false =>
                  rw [if_neg (by decide)]
                  exact ⟨.null, rfl⟩
              | true =>
                  rw [htv] at h
                  simp only [Bool.not_true, Bool.false_or] at h
                  rw [if_pos rfl]
                  cases v with
                  | obj gs => exact ⟨_, rfl⟩
                  | null => cases h
                  | bool b => cases h
                  | num n => cases h
                  | str s => cases h
                  | arr xs => cases h
      | null => cases h
      | bool b => cases h
      | num n => cases h
      | str s => cases h
      | arr xs => cases h
/-- C8 (amended).  Each extractor returns no value (never an exception)
when keys along its path are missing, and is total on records whose
present intermediate values have the shapes the code consumes
(dictionaries at the `.get` receivers, a list at `rel[0]`); a *null*
stored first-level property value, however, is not tolerated — the
chained `.get` on it raises `AttributeError` (see the counterexample). -/
theorem c8_total_amended :
    (∀ data, wfStars data = true → ∃ v, extract_stars data = .ok v) ∧
    (∀ data, wfProjectName data = true → ∃ v, extract_project_name data = .ok v) ∧
    (∀ data, wfExternalUrl data = true → ∃ v, extract_external_url data = .ok v) ∧
    (∀ data fs, pyGetItem data "properties" = .ok (.obj fs) →
        lookupField fs "Future Value Rank" = none →
        extract_stars data = .ok .null) ∧
    (∀ data fs gs, pyGetItem data "properties" = .ok (.obj fs) →
        lookupField fs "Future Value Rank" = some (.obj gs) →
        (lookupField gs "select" = none ∨ lookupField gs "select" = some .null) →
        extract_stars data = .ok .null) ∧
    (∀ data fs, pyGetItem data "properties" = .ok (.obj fs) →
        lookupField fs projKey = none → lookupField fs "Projects" = none →
        extract_project_name data = .ok .null) ∧
    (∀ data fs, pyGetItem data "properties" = .ok (.obj fs) →
        lookupField fs "URL" = none →
        extract_external_url data = .ok .null) := by
  refine ⟨extract_stars_total, extract_project_name_total, extract_external_url_total,
    ?_, ?_, ?_, ?_⟩
  · intro data fs hp hl
    rw [extract_stars, hp]
    dsimp only
    rw [pyDictGetD]
    dsimp only
    rw [hl]
    rfl
  · intro data fs gs hp hl hsel
    rw [extract_stars, hp]
    dsimp only
    rw [pyDictGetD]
    dsimp only
    rw [hl]
    dsimp only
    rw [pyDictGet]
    dsimp only
    rcases hsel with hsel | hsel <;> rw [hsel] <;> rfl
  · intro data fs hp hl1 hl2
    rw [extract_project_name, hp]
    dsimp only
    rw [pyDictGetD]
    dsimp only
    rw [hl1]
    dsimp only
    rw [pyDictGetD]
    dsimp only
    rw [hl2]
    rfl
  · intro data fs hp hl
    rw [extract_external_url, hp]
    dsimp only
    rw [pyDictGetD]
    dsimp only
    rw [hl]
    rfl
/-- A fully populated record for the totality conjuncts. -/
def c8wfPage : JVal :=
  .obj [("properties", .obj
    [("Future Value Rank", .obj [("select", .obj [("name", .str "5")])]),
     ("Projects", .obj [("relation", .arr [.obj [("id", .str "r1")]])]),
     ("URL", .obj [("url", .str "http")])])]

/-- A record with an empty properties dictionary. -/
def c8emptyPage : JVal :=
  .obj [("properties", .obj [])]

/-- C8 witness: totality at a fully populated record and `None` results
at a record with all keys missing. -/
theorem c8_witness :
    (∃ v, extract_stars c8wfPage = .ok v) ∧
    (∃ v, extract_project_name c8wfPage = .ok v) ∧
    (∃ v, extract_external_url c8wfPage = .ok v) ∧
    extract_stars c8emptyPage = .ok .null ∧
    extract_project_name c8emptyPage = .ok .null ∧
    extract_external_url c8emptyPage = .ok .null :=
  ⟨c8_total_amended.1 c8wfPage (by decide),
   c8_total_amended.2.1 c8wfPage (by decide),
   c8_total_amended.2.2.1 c8wfPage (by decide),
   c8_total_amended.2.2.2.1 c8emptyPage [] rfl rfl,
   c8_total_amended.2.2.2.2.2.1 c8emptyPage [] rfl rfl rfl,
   c8_total_amended.2.2.2.2.2.2 c8emptyPage [] rfl rfl⟩

end NotionAssistant
